import Mathlib

/-!
Shallow embedding of the live conversation feed of `src/components/chat/ChatWindow.tsx`
(the Conversation Feed Synchronizer of the spec): the two merge steps (push
subscription insert handler and the 2-second silent poll), the initial fetch and
mount sequence, the scroll policy, and the send handler.  Each definition mirrors
one function of the source file; asynchronous resolutions are passed in as
explicit arguments (`Except`/`Option` results, a Bool for an insert error).
-/

namespace ChatWindow

/-- A message row as selected by the component: `id`, `created_at` (modelled as a
Nat timestamp; the store orders by it ascending), `sender_id`, `request_id`,
`content`.  The joined `sender` display data plays no role in the claims. -/
structure Message where
  id : String
  created_at : Nat
  sender_id : String
  request_id : String
  content : String
deriving DecidableEq

/-- Component state held in React `useState`: `messages` (the transcript),
`newMessage` (the input box), `loading`, `sending`. -/
structure ChatState where
  messages : List Message
  newMessage : String
  loading : Bool
  sending : Bool
deriving DecidableEq

/-- Observable side effects of the handlers: a store insert (with the payload the
code sends), a `console.error`/`console.debug` log, and the `setTimeout(scrollToBottom, 100)`
scheduled after a successful send. -/
inductive Effect where
  | storeInsert (sid : String) (rid : String) (content : String)
  | consoleError
  | scheduleScrollToBottom
deriving DecidableEq

/-- What the component renders: the loading spinner while `loading` is true,
otherwise the chat UI.  The source has no error branch in its render. -/
inductive View
  | loadingSpinner
  | chatUI
deriving DecidableEq

/-- Render function of the component: `if (loading) return <spinner/>` else the chat. -/
def render (s : ChatState) : View :=
  if s.loading then View.loadingSpinner else View.chatUI

/-- JavaScript `String.prototype.trim()`: strip leading and trailing whitespace,
modelled structurally over the character list so it is kernel-executable. -/
def jsTrim (s : String) : String :=
  ⟨((s.data.dropWhile Char.isWhitespace).reverse.dropWhile Char.isWhitespace).reverse⟩

/-- The `setMessages` updater inside the `subscribeToMessages` INSERT handler:
`const exists = prev.some(msg => msg.id === data.id); if (exists) return prev; return [...prev, data];` -/
def insertEventMerge (prev : List Message) (data : Message) : List Message :=
  if prev.any (fun msg => msg.id == data.id) then prev else prev ++ [data]

/-- Success continuation of `silentRefreshMessages`: given the closure's `messages`
and the fetched `data` (possibly null), it calls `setMessages(data)` exactly when
`data && data.length !== messages.length`.  Returns the new list and whether a
state update was emitted. -/
def silentRefreshMessages (messages : List Message) (data : Option (List Message)) :
    List Message × Bool :=
  match data with
  | none => (messages, false)
  | some d => if d.length ≠ messages.length then (d, true) else (messages, false)

/-- Two consecutive ticks of the 2-second interval for the same fetched candidate:
`setInterval` registers the `silentRefreshMessages` closure once when the mount
effect runs, so every tick gates against the SAME captured `messages` list (the
transcript of the render in which the effect ran — empty on a fresh mount), never
against the current transcript.  The pair gives each tick's update-emitted flag. -/
def twoPollTicks (captured : List Message) (data : Option (List Message)) : Bool × Bool :=
  ((silentRefreshMessages captured data).2, (silentRefreshMessages captured data).2)

/-- Continuation of `fetchMessages` on the resolved initial fetch: on success
`setMessages(data || [])`, on error `console.error`; `finally` clears `loading`. -/
def fetchMessages (s : ChatState) (result : Except Unit (Option (List Message))) :
    ChatState × List Effect :=
  match result with
  | .ok data => ({ s with messages := data.getD [], loading := false }, [])
  | .error _ => ({ s with loading := false }, [Effect.consoleError])

/-- Outcome of the mount `useEffect`: which channels were started, the state after
the initial fetch resolves, and the logged effects. -/
structure MountResult where
  subscriptionStarted : Bool
  pollingStarted : Bool
  afterFetch : ChatState
  effects : List Effect
deriving DecidableEq

/-- The mount `useEffect` body: it fires `fetchMessages()` without awaiting it, then
synchronously calls `subscribeToMessages()` and `setInterval(silentRefreshMessages, 2000)`.
Both channels are therefore started unconditionally, before and independently of the
fetch outcome, which only arrives later via the `fetchMessages` continuation. -/
def mountChatWindow (s : ChatState) (fetchResult : Except Unit (Option (List Message))) :
    MountResult :=
  let f := fetchMessages s fetchResult
  { subscriptionStarted := true
    pollingStarted := true
    afterFetch := f.1
    effects := f.2 }

/-- Viewport geometry read in `handleScroll` from `e.currentTarget`. -/
structure ScrollMetrics where
  scrollTop : Int
  scrollHeight : Int
  clientHeight : Int
deriving DecidableEq

/-- `const isAtBottom = scrollTop + clientHeight >= scrollHeight - 10;` -/
def isAtBottom (m : ScrollMetrics) : Bool :=
  m.scrollTop + m.clientHeight ≥ m.scrollHeight - 10

/-- Scroll-policy state: `isUserScrolling` is the `isUserScrollingRef` flag
(`false` = PINNED, `true` = READING); `timerArmed` records whether
`scrollTimeoutRef` holds a pending timeout. -/
structure ScrollState where
  isUserScrolling : Bool
  timerArmed : Bool
deriving DecidableEq

/-- `handleScroll`: sets `isUserScrollingRef.current = !isAtBottom`, clears any
pending timeout and arms a fresh 3-second one (on every scroll event). -/
def handleScroll (_st : ScrollState) (m : ScrollMetrics) : ScrollState :=
  { isUserScrolling := !(isAtBottom m), timerArmed := true }

/-- The 3-second timeout callback armed by `handleScroll`:
`() => { isUserScrollingRef.current = false; }` — it takes no input and clears the
flag unconditionally. -/
def scrollTimeoutCallback (_st : ScrollState) : ScrollState :=
  { isUserScrolling := false, timerArmed := false }

/-- Modelled from the spec (§4.5), for comparison with `scrollTimeoutCallback`:
when the quiet-timer fires, the state "is allowed to re-evaluate position (not
unconditionally reset to `PINNED` — only re-checked)", i.e. the flag becomes
`!isAtBottom` of the current viewport metrics. -/
def specQuietTimerReEval (m : ScrollMetrics) : Bool :=
  !(isAtBottom m)

/-- `handleSendMessage`: guard `if (!newMessage.trim() || !user) return;`, then insert
`{sender_id: user.id, request_id: requestId, content: newMessage.trim()}`; on success
clear the input and schedule `scrollToBottom`; on error `console.error`; `finally`
clears `sending`.  The resolved insert outcome is passed as `insertError`. -/
def handleSendMessage (s : ChatState) (user : Option String) (requestId : String)
    (insertError : Bool) : ChatState × List Effect :=
  match user with
  | none => (s, [])
  | some uid =>
    if (jsTrim s.newMessage).isEmpty then (s, [])
    else
      let body := jsTrim s.newMessage
      if insertError then
        ({ s with sending := false }, [Effect.storeInsert uid requestId body, Effect.consoleError])
      else
        ({ s with newMessage := "", sending := false },
          [Effect.storeInsert uid requestId body, Effect.scheduleScrollToBottom])

/-- Surrounding application state for the stale-continuation scenario: whether the
view is still mounted and which conversation id is currently active. -/
structure AppState where
  mounted : Bool
  activeRequestId : String
  messages : List Message
deriving DecidableEq

/-- A late-resolving silent-refresh continuation applied to whatever state the
component has when it resolves: the closure computes with its captured `messages`
list and calls `setMessages(data)` under the length gate; the source consults
neither `app.mounted` nor `app.activeRequestId`. -/
def applyLateRefresh (app : AppState) (capturedMessages : List Message)
    (data : Option (List Message)) : AppState :=
  let r := silentRefreshMessages capturedMessages data
  if r.2 then { app with messages := r.1 } else app

/-- Strict transcript order of the spec: ascending `created_at`, ties broken by `id`. -/
def msgLt (a b : Message) : Prop :=
  a.created_at < b.created_at ∨ (a.created_at = b.created_at ∧ a.id < b.id)

instance instDecidableMsgLt : DecidableRel msgLt := fun a b =>
  inferInstanceAs (Decidable (a.created_at < b.created_at ∨ (a.created_at = b.created_at ∧ a.id < b.id)))

/-- A transcript sorted strictly ascending in the spec's order. -/
def strictlySorted (l : List Message) : Prop :=
  l.Chain' msgLt

/-- Executable check for `strictlySorted`. -/
def strictlySortedB : List Message → Bool
  | [] => true
  | [_] => true
  | a :: b :: rest => decide (msgLt a b) && strictlySortedB (b :: rest)

theorem strictlySorted_iff (l : List Message) : strictlySorted l ↔ strictlySortedB l = true := by
  induction l with
  | nil => simp [strictlySorted, strictlySortedB]
  | cons a rest ih =>
    cases rest with
    | nil => simp [strictlySorted, strictlySortedB]
    | cons b t =>
      simp only [strictlySorted, List.chain'_cons, strictlySortedB, Bool.and_eq_true,
        decide_eq_true_eq]
      exact and_congr Iff.rfl ih

instance instDecidableStrictlySorted (l : List Message) : Decidable (strictlySorted l) :=
  decidable_of_decidable_of_iff (strictlySorted_iff l).symm

/-- Sample message with id `m1` and timestamp 1. -/
def msg1 : Message := ⟨"m1", 1, "u1", "r1", "one"⟩

/-- Sample message with id `m2` and timestamp 2. -/
def msg2 : Message := ⟨"m2", 2, "u1", "r1", "two"⟩

/-- Sample message with id `m3` and timestamp 3. -/
def msg3 : Message := ⟨"m3", 3, "u1", "r1", "three"⟩

/-- Sample message with id `m0` and timestamp 0, earlier than all the others. -/
def msgEarly : Message := ⟨"m0", 0, "u1", "r1", "zero"⟩

/-- C10: if the input body is empty or whitespace-only after trimming, or there is no
authenticated user, `handleSendMessage` performs no store write and returns the
component state exactly unchanged (no effects at all). -/
theorem C10_send_guard :
    ∀ (s : ChatState) (user : Option String) (rid : String) (e : Bool),
      (jsTrim s.newMessage).isEmpty = true ∨ user = none →
      handleSendMessage s user rid e = (s, []) := by
  intro s user rid e h
  match user with
  | none => rfl
  | some uid =>
    rcases h with h | h
    · simp [handleSendMessage, h]
    · exact absurd h (by simp)

theorem C10_send_guard_witness :
    handleSendMessage ⟨[], "   ", false, false⟩ (some "u1") "r1" false
      = (⟨[], "   ", false, false⟩, []) :=
  C10_send_guard ⟨[], "   ", false, false⟩ (some "u1") "r1" false (Or.inl (by decide))

/-- C9 counterexample: sending `"hi"` as user `u1` when the insert fails returns the
component state EXACTLY unchanged and emits, besides the attempted insert, only a
`console.error` — no state visible to the render changes, so no visible error is
surfaced, contradicting the claim's "surfaces a visible error". -/
theorem C9_counterexample :
    handleSendMessage ⟨[], "hi", false, false⟩ (some "u1") "r1" true
        = (⟨[], "hi", false, false⟩, [Effect.storeInsert "u1" "r1" "hi", Effect.consoleError])
      ∧ render ⟨[], "hi", false, false⟩ = View.chatUI := by
  decide

/-- C9 (amended): given a non-empty trimmed body and an authenticated actor, send
writes through with the conversation id, sender id and trimmed body; on success it
clears the input and schedules the forced scroll-to-bottom; on failure it leaves the
input populated and does not retry (a single insert effect), but the error is only
logged to the console — the component has no visible error state.  The transcript is
never touched locally in either case. -/
theorem C9_send_contract_amended :
    ∀ (s : ChatState) (uid rid : String),
      (jsTrim s.newMessage).isEmpty = false →
        handleSendMessage s (some uid) rid false =
            ({ s with newMessage := "", sending := false },
              [Effect.storeInsert uid rid (jsTrim s.newMessage), Effect.scheduleScrollToBottom])
          ∧ handleSendMessage s (some uid) rid true =
            ({ s with sending := false },
              [Effect.storeInsert uid rid (jsTrim s.newMessage), Effect.consoleError])
          ∧ ∀ e : Bool, (handleSendMessage s (some uid) rid e).1.messages = s.messages := by
  intro s uid rid h
  refine ⟨by simp [handleSendMessage, h], by simp [handleSendMessage, h], ?_⟩
  intro e
  cases e <;> simp [handleSendMessage, h]

theorem C9_send_contract_witness :
    handleSendMessage ⟨[], " hi ", false, false⟩ (some "u1") "r1" false
      = (⟨[], "", false, false⟩,
          [Effect.storeInsert "u1" "r1" "hi", Effect.scheduleScrollToBottom]) :=
  (C9_send_contract_amended ⟨[], " hi ", false, false⟩ "u1" "r1" (by decide)).1

/-- C2: evaluation at the failing input.  On a fresh mount the `setInterval`
closure captures the empty transcript; the initial fetch then populates `[m1]`; a
poll returning `[m1]` — id-set-equal (indeed equal) to the current transcript —
passes the frozen gate (`1 ≠ 0`) and emits a state update, and the second
identical tick runs the very same closure and emits an update again: a
`setMessages` call (hence a re-render, with a fresh array object) on both calls,
where the claim — and the source's own comment "Only update if there are actually
new messages" — requires none. -/
theorem C2_stale_gate_fires :
    (fetchMessages ⟨[], "", true, false⟩ (.ok (some [msg1]))).1.messages = [msg1]
      ∧ twoPollTicks [] (some [msg1]) = (true, true) := by
  decide

/-- C3 counterexample, on a reachable fresh-mount trace: the interval closure
captures the empty transcript; the initial fetch populates `[m1]`; a later poll
tick's full-list result is empty (the message is no longer visible in the store —
the very deletion/visibility case the claim cites).  The gate compares the fetched
length (0) with the frozen captured length (0), so NO update is emitted and the
current transcript keeps `m1` even though it is absent from the poll's result —
the poll is not authoritative for membership. -/
theorem C3_counterexample :
    (fetchMessages ⟨[], "", true, false⟩ (.ok (some [msg1]))).1.messages = [msg1]
      ∧ applyLateRefresh ⟨true, "r1", [msg1]⟩ [] (some ([] : List Message))
          = ⟨true, "r1", [msg1]⟩
      ∧ msg1 ∉ ([] : List Message) := by
  decide

/-- C3 (amended): a poll merge removes absent messages only when its gate passes,
and the gate compares the fetched list's length with the length of the transcript
captured by the interval's closure when the mount effect ran — never with the
current transcript.  When the lengths differ, the current transcript is replaced
wholesale by the poll result, so every retained message belongs to the poll result
(on a fresh mount, captured empty, the spec's example `[m1, m2, m3]` polled as
`[m1, m3]` is indeed replaced by `[m1, m3]`); when the fetched length equals the
captured length, no update is emitted and messages absent from the poll result are
retained. -/
theorem C3_poll_membership_amended :
    ∀ (app : AppState) (captured d : List Message),
      (d.length ≠ captured.length →
        applyLateRefresh app captured (some d) = { app with messages := d }
          ∧ ∀ m ∈ (applyLateRefresh app captured (some d)).messages, m ∈ d)
        ∧ (d.length = captured.length → applyLateRefresh app captured (some d) = app) := by
  intro app captured d
  constructor
  · intro h
    refine ⟨by simp [applyLateRefresh, silentRefreshMessages, h], ?_⟩
    intro m hm
    simpa [applyLateRefresh, silentRefreshMessages, h] using hm
  · intro h
    simp [applyLateRefresh, silentRefreshMessages, h]

theorem C3_poll_membership_witness :
    applyLateRefresh ⟨true, "r1", [msg1, msg2, msg3]⟩ [] (some [msg1, msg3])
      = ⟨true, "r1", [msg1, msg3]⟩ :=
  ((C3_poll_membership_amended ⟨true, "r1", [msg1, msg2, msg3]⟩ [] [msg1, msg3]).1
    (by decide)).1

/-- C4 counterexample: transcript `[m1]` merged with a push candidate `m0` whose
`createdAt` (0) is earlier than `m1`'s (1) yields `[m1, m0]` — the fetched message
is appended at the END, not `[m0, m1]` as the claim states. -/
theorem C4_counterexample :
    msgEarly.created_at < msg1.created_at
      ∧ insertEventMerge [msg1] msgEarly = [msg1, msgEarly]
      ∧ insertEventMerge [msg1] msgEarly ≠ [msgEarly, msg1] := by
  decide

/-- C4 (amended): push is additive-only — the merge either leaves the transcript
unchanged or appends the fetched message at the end, every previous message is
retained, and the candidate's id is present afterwards; but the fresh message goes
to the END regardless of `createdAt`: `[m1]` with an earlier `m2` yields `[m1, m2]`,
not `[m2, m1]`. -/
theorem C4_push_additive_amended :
    ∀ (prev : List Message) (a : Message),
      (insertEventMerge prev a = prev ∨ insertEventMerge prev a = prev ++ [a])
        ∧ (∀ m ∈ prev, m ∈ insertEventMerge prev a)
        ∧ a.id ∈ (insertEventMerge prev a).map Message.id := by
  intro prev a
  by_cases h : prev.any (fun msg => msg.id == a.id) = true
  · refine ⟨Or.inl (by simp [insertEventMerge, h]), ?_, ?_⟩
    · intro m hm
      simpa [insertEventMerge, h] using hm
    · rcases List.any_eq_true.1 h with ⟨x, hx, hid⟩
      have : x.id = a.id := by simpa using hid
      simp only [insertEventMerge, h, if_true]
      exact this ▸ List.mem_map_of_mem Message.id hx
  · refine ⟨Or.inr (by simp [insertEventMerge, h]), ?_, ?_⟩
    · intro m hm
      simp [insertEventMerge, h, hm]
    · simp [insertEventMerge, h]

theorem C4_push_additive_witness :
    msg1 ∈ insertEventMerge [msg1] msg2 :=
  (C4_push_additive_amended [msg1] msg2).2.1 msg1 (by decide)

/-- C8: the transcript never acquires two entries with the same id — a push merge
whose candidate id is already present returns the previous list unchanged (same
ids, same order); push merges preserve id-uniqueness; and poll merges preserve
id-uniqueness whenever the store's list is id-unique. -/
theorem C8_id_uniqueness :
    (∀ (prev : List Message) (a : Message), a.id ∈ prev.map Message.id →
      insertEventMerge prev a = prev)
    ∧ (∀ (prev : List Message) (a : Message), (prev.map Message.id).Nodup →
        ((insertEventMerge prev a).map Message.id).Nodup)
    ∧ ∀ (msgs d : List Message), (msgs.map Message.id).Nodup → (d.map Message.id).Nodup →
        (((silentRefreshMessages msgs (some d)).1).map Message.id).Nodup := by
  refine ⟨?_, ?_, ?_⟩
  · intro prev a ha
    rcases List.mem_map.1 ha with ⟨x, hx, hid⟩
    have h : prev.any (fun msg => msg.id == a.id) = true :=
      List.any_eq_true.2 ⟨x, hx, by simpa using hid⟩
    simp [insertEventMerge, h]
  · intro prev a hnd
    by_cases h : prev.any (fun msg => msg.id == a.id) = true
    · simpa [insertEventMerge, h] using hnd
    · have hnotmem : a.id ∉ prev.map Message.id := by
        intro hmem
        rcases List.mem_map.1 hmem with ⟨x, hx, hid⟩
        exact h (List.any_eq_true.2 ⟨x, hx, by simpa using hid⟩)
      have : (insertEventMerge prev a).map Message.id = prev.map Message.id ++ [a.id] := by
        simp [insertEventMerge, h]
      rw [this, List.nodup_append]
      refine ⟨hnd, List.nodup_singleton a.id, fun x hx hx1 => ?_⟩
      have hxa : x = a.id := List.mem_singleton.1 hx1
      exact hnotmem (hxa ▸ hx)
  · intro msgs d hm hd
    by_cases h : d.length = msgs.length <;> simpa [silentRefreshMessages, h]

theorem C8_id_uniqueness_witness :
    insertEventMerge [msg1, msg2] msg2 = [msg1, msg2] :=
  C8_id_uniqueness.1 [msg1, msg2] msg2 (by decide)

/-- Appending an upper bound to a sorted transcript keeps it sorted. -/
theorem strictlySorted_append_singleton (l : List Message) (a : Message)
    (hl : strictlySorted l) (ha : ∀ m ∈ l, msgLt m a) : strictlySorted (l ++ [a]) := by
  unfold strictlySorted at hl ⊢
  rw [List.chain'_append]
  refine ⟨hl, List.chain'_singleton a, ?_⟩
  intro x hx y hy
  have hxa : x ∈ l := by
    obtain ⟨hne, rfl⟩ := List.mem_getLast?_eq_getLast hx
    exact List.getLast_mem hne
  have hya : a = y := by simpa using hy
  exact hya ▸ ha x hxa

/-- C1 counterexample: the transcript `[m1]` is sorted, the push candidate `m0` has
an earlier `createdAt` than every message in it, yet the push merge appends it at
the end, producing `[m1, m0]`, which is NOT sorted ascending by `createdAt` — so
the order invariant fails and the earlier message is placed last, not first. -/
theorem C1_counterexample :
    strictlySorted [msg1]
      ∧ (∀ m ∈ [msg1], msgEarly.created_at < m.created_at)
      ∧ insertEventMerge [msg1] msgEarly = [msg1, msgEarly]
      ∧ ¬ strictlySorted (insertEventMerge [msg1] msgEarly) := by
  decide

/-- C1 (amended): poll merges preserve sortedness (the result is either the current
transcript or the store's list, so it is sorted whenever both are); a push merge
preserves sortedness only when the candidate is already present (no-op) or is
strictly greater (by `createdAt`, ties by `id`) than every message in the
transcript — it appends at the end, so a push candidate earlier than an existing
message breaks the invariant. -/
theorem C1_order_invariant_amended :
    (∀ (msgs d : List Message), strictlySorted msgs → strictlySorted d →
      strictlySorted (silentRefreshMessages msgs (some d)).1)
    ∧ ∀ (prev : List Message) (a : Message), strictlySorted prev →
        (∀ m ∈ prev, msgLt m a) → strictlySorted (insertEventMerge prev a) := by
  constructor
  · intro msgs d hm hd
    by_cases h : d.length = msgs.length <;> simpa [silentRefreshMessages, h]
  · intro prev a hs ha
    by_cases h : prev.any (fun msg => msg.id == a.id) = true
    · simpa [insertEventMerge, h] using hs
    · have : insertEventMerge prev a = prev ++ [a] := by simp [insertEventMerge, h]
      rw [this]
      exact strictlySorted_append_singleton prev a hs ha

theorem C1_order_invariant_witness :
    strictlySorted (silentRefreshMessages [msg1] (some [msg1, msg2])).1
      ∧ strictlySorted (insertEventMerge [msg1] msg2) :=
  ⟨C1_order_invariant_amended.1 [msg1] [msg1, msg2] (by decide) (by decide),
   C1_order_invariant_amended.2 [msg1] msg2 (by decide) (by decide)⟩

/-- C5 counterexample: mounting with an initial fetch that fails still starts both
the push subscription and the polling interval, logs only to the console, and
renders the ordinary chat UI (the component has no error view at all) — channel
startup is not gated on a successful load and no visible error is surfaced. -/
theorem C5_counterexample :
    (mountChatWindow ⟨[], "", true, false⟩ (.error ())).subscriptionStarted = true
      ∧ (mountChatWindow ⟨[], "", true, false⟩ (.error ())).pollingStarted = true
      ∧ (mountChatWindow ⟨[], "", true, false⟩ (.error ())).effects = [Effect.consoleError]
      ∧ render (mountChatWindow ⟨[], "", true, false⟩ (.error ())).afterFetch = View.chatUI := by
  decide

/-- C5 (amended): the mount effect starts the push subscription and the 2-second
polling interval unconditionally, before and independently of the initial fetch's
outcome; when the initial fetch fails, the error is only logged to the console,
`loading` is cleared and the ordinary chat UI renders — there is no visible error
state, and the running poll retries the full fetch automatically every 2 seconds
rather than waiting for a re-mount. -/
theorem C5_mount_failure_amended :
    ∀ (s : ChatState) (fr : Except Unit (Option (List Message))),
      (mountChatWindow s fr).subscriptionStarted = true
        ∧ (mountChatWindow s fr).pollingStarted = true
        ∧ (mountChatWindow s (.error ())).afterFetch = { s with loading := false }
        ∧ (mountChatWindow s (.error ())).effects = [Effect.consoleError]
        ∧ render { s with loading := false } = View.chatUI := by
  intro s fr
  refine ⟨rfl, rfl, rfl, rfl, ?_⟩
  simp [render]

/-- C6 counterexample: the view has been unmounted (and last showed conversation
`convB` with transcript `[m3]`); a previously in-flight silent-refresh fetch whose
closure captured `[m1]` resolves with `[m1, m2]` — the continuation applies the
merge anyway, replacing the transcript with `[m1, m2]`: the merge IS applied to the
torn-down, superseded state, because no continuation checks mount status or the
active conversation id. -/
theorem C6_counterexample :
    applyLateRefresh ⟨false, "convB", [msg3]⟩ [msg1] (some [msg1, msg2])
        = ⟨false, "convB", [msg1, msg2]⟩
      ∧ applyLateRefresh ⟨false, "convB", [msg3]⟩ [msg1] (some [msg1, msg2])
        ≠ ⟨false, "convB", [msg3]⟩ := by
  decide

/-- C6 (amended): no asynchronous continuation checks that it still targets the
active, mounted conversation — a late-resolving poll fetch applies its
`setMessages` update to whatever state is current, for every mount flag and every
active conversation id, whenever its length gate passes; errors themselves are
swallowed by the `catch`, so no exception escapes, but stale results are not
discarded. -/
theorem C6_stale_continuation_amended :
    ∀ (app : AppState) (captured d : List Message), d.length ≠ captured.length →
      applyLateRefresh app captured (some d) = { app with messages := d } := by
  intro app captured d h
  simp [applyLateRefresh, silentRefreshMessages, h]

theorem C6_stale_continuation_witness :
    applyLateRefresh ⟨true, "convB", [msg3]⟩ [msg1] (some [msg1, msg2])
      = ⟨true, "convB", [msg1, msg2]⟩ :=
  C6_stale_continuation_amended ⟨true, "convB", [msg3]⟩ [msg1] [msg1, msg2] (by decide)

/-- C7 counterexample: with the viewport far from the bottom (scrollTop 0, height
1000, client 100), a scroll event moves the state to READING (`isUserScrolling =
true`) and arms the timer; when the 3-second timer fires it sets the flag to
`false` (PINNED) unconditionally, although re-evaluating the unchanged viewport
position would yield READING — the timer does not merely re-evaluate. -/
theorem C7_counterexample :
    handleScroll ⟨false, false⟩ ⟨0, 1000, 100⟩ = ⟨true, true⟩
      ∧ scrollTimeoutCallback ⟨true, true⟩ = ⟨false, false⟩
      ∧ specQuietTimerReEval ⟨0, 1000, 100⟩ = true
      ∧ (scrollTimeoutCallback ⟨true, true⟩).isUserScrolling
          ≠ specQuietTimerReEval ⟨0, 1000, 100⟩ := by
  decide

/-- C7 (amended): a scroll event yields PINNED (`isUserScrolling = false`) exactly
when the position is within the 10 px bottom tolerance and READING otherwise, and
it (re-)arms the 3-second quiet-timer on every scroll event; when the timer fires
it unconditionally clears the flag back to PINNED without re-evaluating the
viewport position. -/
theorem C7_scroll_policy_amended :
    ∀ (st : ScrollState) (m : ScrollMetrics),
      ((handleScroll st m).isUserScrolling = false
          ↔ m.scrollTop + m.clientHeight ≥ m.scrollHeight - 10)
        ∧ (handleScroll st m).timerArmed = true
        ∧ scrollTimeoutCallback st = ⟨false, false⟩ := by
  intro st m
  refine ⟨?_, rfl, rfl⟩
  simp [handleScroll, isAtBottom]

end ChatWindow
